import Mathlib

/-!
Shallow embedding of the `github-action-aws` repository (three AWS Lambda
handlers written in Python) and verification of the frozen claims about it.

Source files embedded:
  * `src/lambda/git-ci-logger.py`           — SQS consumer / audit recorder
  * `src/lambda/nlp-for-devops-eks-prod.py` — EKS action dispatcher (final revision)
  * `src/lambda/eks-status.py`              — EKS status/describe/get handler

Python strings are modelled as `List Char`.  External collaborators
(subprocess/kubectl, the filesystem, boto3 clients: DynamoDB, Lambda, SQS,
EKS) are modelled as oracle parameters; every handler returns, alongside its
result envelope, the trace of external effects it performed, in order.
-/

/-- The apostrophe character (code point 39), used in the Python f-string
messages of the handlers. -/
def SQ : Char := Char.ofNat 39

/-- `quoted s` is the text `s` wrapped in apostrophes, as produced by Python
f-strings of shape `f"...'{s}'..."` and by `repr` of a simple string. -/
def quoted (s : List Char) : List Char := SQ :: (s ++ [SQ])

/-- Python `str.lower()` restricted to the characters appearing in namespace
strings (modelled with `Char.toLower`, which agrees with Python on ASCII). -/
def pyLower (s : List Char) : List Char := s.map Char.toLower

/-- Python `str.split('/')`: splits on every `'/'`, keeping empty segments;
`"".split('/') == [""]`, so the result is never the empty list. -/
def splitSlash : List Char → List (List Char)
  | [] => [[]]
  | c :: rest =>
    if c = '/' then [] :: splitSlash rest
    else
      match splitSlash rest with
      | [] => [[c]]
      | seg :: segs => (c :: seg) :: segs

/-- Python `str.rstrip('/')`: removes all trailing `'/'` characters. -/
def rstripSlash (s : List Char) : List Char :=
  (s.reverse.dropWhile (fun c => c = '/')).reverse

/-- Fuel-driven worker for `replaceAll`; the fuel only makes the recursion
structural and is always called with at least `s.length`, in which case it
never runs out. -/
def replaceAllGo (pat repl : List Char) : Nat → List Char → List Char
  | _, [] => []
  | 0, s => s
  | fuel + 1, c :: rest =>
    if pat <+: (c :: rest) then
      repl ++ replaceAllGo pat repl fuel (rest.drop (pat.length - 1))
    else
      c :: replaceAllGo pat repl fuel rest

/-- Python `str.replace(pat, repl)` for a non-empty pattern `pat`: replaces
every non-overlapping occurrence, scanning left to right.  (The Python
empty-pattern behaviour is not mirrored; the only pattern used in the
sources is the non-empty literal `__IMAGE_TAG__`.) -/
def replaceAll (pat repl s : List Char) : List Char :=
  replaceAllGo pat repl s.length s

/-- The literal placeholder token of `nlp-for-devops-eks-prod.py`. -/
def IMAGE_TAG_PLACEHOLDER : List Char := "__IMAGE_TAG__".toList

/-- Step 3 of the `apply` loop of `nlp-for-devops-eks-prod.lambda_handler`
(lines 165–169): `if "__IMAGE_TAG__" in yaml_text: yaml_text =
yaml_text.replace("__IMAGE_TAG__", image)`. -/
def renderManifest (yaml_text image : List Char) : List Char :=
  if IMAGE_TAG_PLACEHOLDER <:+: yaml_text then
    replaceAll IMAGE_TAG_PLACEHOLDER image yaml_text
  else
    yaml_text

/-- Python `"sep".join(xs)`. -/
def joinSep (sep : List Char) : List (List Char) → List Char
  | [] => []
  | [x] => x
  | x :: xs => x ++ sep ++ joinSep sep xs

/-!
## Embedding of `src/lambda/git-ci-logger.py`
-/

/-- The Python exceptions that flow through the handlers.  `str(e)` of each
variant is given by `pyStr` below. -/
inductive PyError where
  /-- `subprocess.CalledProcessError` raised by `subprocess.check_output`:
  carries the full command, the combined stdout/stderr, and the (positive)
  exit status. -/
  | calledProcessError (cmd : List (List Char)) (output : List Char) (returncode : Nat)
  /-- `FileNotFoundError`, carrying the missing path. -/
  | fileNotFound (path : List Char)
  /-- `KeyError`, carrying the missing dictionary key. -/
  | keyError (key : List Char)
  /-- `json.JSONDecodeError` from `json.loads`, message abstracted. -/
  | jsonDecodeError (msg : List Char)
  /-- `botocore.exceptions.ClientError`, message abstracted. -/
  | clientError (msg : List Char)
  /-- Any other exception, message abstracted. -/
  | generic (msg : List Char)
deriving DecidableEq, Repr

/-- Python `repr` of a list of simple strings (no quotes or escapes inside),
as interpolated by `"%s" % cmd` in `str(CalledProcessError)`. -/
def pyReprStrList (xs : List (List Char)) : List Char :=
  "[".toList ++ joinSep ", ".toList (xs.map quoted) ++ "]".toList

/-- Python `str(e)` for each modelled exception (for `CalledProcessError`
with a positive exit status; death-by-signal is not modelled). -/
def pyStr : PyError → List Char
  | .calledProcessError cmd _ returncode =>
    "Command ".toList ++ quoted (pyReprStrList cmd) ++
      " returned non-zero exit status ".toList ++ (toString returncode).toList ++ ".".toList
  | .fileNotFound path =>
    "[Errno 2] No such file or directory: ".toList ++ quoted path
  | .keyError key => quoted key
  | .jsonDecodeError msg => msg
  | .clientError msg => msg
  | .generic msg => msg

/-- `extract_full_image_tag(repo_url, version)` of `git-ci-logger.py`
(lines 56–74).  `repo_url` is `Option` because the caller passes
`message_data.get('repo_url')`, which may be `None`; in that case
`None.rstrip('/')` raises `AttributeError`, which the function's blanket
`except Exception` turns into `f"N/A:{version}"` (modelled directly by the
`none` branch). -/
def extract_full_image_tag : Option (List Char) → List Char → List Char
  | none, version => "N/A:".toList ++ version
  | some repo_url, version =>
    let parts := splitSlash (rstripSlash repo_url)
    if parts.length ≥ 2 then
      let repo_path := parts.getD (parts.length - 2) [] ++ "/".toList ++
        parts.getD (parts.length - 1) []
      repo_path ++ ":".toList ++ version
    else
      "N/A:".toList ++ version

/-- The parsed SQS message body consumed by `process_single_message_data`
(each field read with `.get`, hence `Option`). -/
structure CiMessage where
  repo_url : Option (List Char)
  version : Option (List Char)
  environment : Option (List Char)
  lex_session_id : Option (List Char)
  bot_id : Option (List Char)
  bot_alias_id : Option (List Char)
  originating_request_id : Option (List Char)
deriving DecidableEq, Repr

/-- The DynamoDB item built by `process_single_message_data` (lines 103–119);
field `build_id` models the `'build-id'` key. -/
structure AuditItem where
  build_id : List Char
  timestamp : List Char
  full_image_tag : List Char
  repo_url : Option (List Char)
  version : List Char
  environment : List Char
  lex_session_id : List Char
  bot_id : List Char
  bot_alias_id : List Char
  originating_request_id : List Char
  sqs_message_id : List Char
deriving DecidableEq, Repr

/-- The payload sent to the EKS deployment Lambda (lines 131–135); field
`nspace` models the `"namespace"` key. -/
structure InvokePayload where
  action : List Char
  image : List Char
  nspace : List Char
deriving DecidableEq, Repr

/-- External effects performed by the consumer, in order of occurrence.
An entry is recorded for every attempted call, whether or not it raised. -/
inductive CiEffect where
  /-- `table.put_item(Item=item)`. -/
  | putItem (item : AuditItem)
  /-- `lambda_client.invoke(FunctionName=…, InvocationType=…, Payload=…)`. -/
  | invokeLambda (functionName invocationType : List Char) (payload : InvokePayload)
  /-- `sqs.delete_message(QueueUrl=…, ReceiptHandle=…)`. -/
  | deleteMessage (receiptHandle : List Char)
deriving DecidableEq, Repr

/-- `process_single_message_data(message_data, message_id)` of
`git-ci-logger.py` (lines 77–151).  The nondeterministic
`str(uuid.uuid4())` and `datetime.now(...).isoformat()` are passed in as
`build_id` / `timestamp`; the outcomes of the DynamoDB put and of the
asynchronous Lambda invocation are the oracles `putError` / `invokeError`
(`none` = the call succeeded).  Returns the Python outcome (`.error e` =
the exception `e` propagates) together with the trace of attempted calls. -/
def process_single_message_data (build_id timestamp : List Char)
    (putError invokeError : Option PyError)
    (message_data : CiMessage) (message_id : List Char) :
    Except PyError Unit × List CiEffect :=
  let repo_url := message_data.repo_url
  let version := message_data.version.getD "latest".toList
  let current_environment := message_data.environment.getD "prod".toList
  let full_image_tag := extract_full_image_tag repo_url version
  let item : AuditItem :=
    { build_id := build_id
      timestamp := timestamp
      full_image_tag := full_image_tag
      repo_url := repo_url
      version := version
      environment := current_environment
      lex_session_id := message_data.lex_session_id.getD "N/A".toList
      bot_id := message_data.bot_id.getD "N/A".toList
      bot_alias_id := message_data.bot_alias_id.getD "N/A".toList
      originating_request_id := message_data.originating_request_id.getD "N/A".toList
      sqs_message_id := message_id }
  match putError with
  | some e => (.error e, [.putItem item])
  | none =>
    let payload : InvokePayload :=
      { action := "apply".toList
        image := full_image_tag
        nspace := current_environment }
    match invokeError with
    | some e =>
      (.error e,
        [.putItem item, .invokeLambda "nlp-for-devops-eks-prod".toList "Event".toList payload])
    | none =>
      (.ok (),
        [.putItem item, .invokeLambda "nlp-for-devops-eks-prod".toList "Event".toList payload])

deriving instance DecidableEq for Except

/-- One SQS record of a queue-triggered batch, bundled with the oracle
outcomes of its processing: `parsed` is the outcome of
`json.loads(record['body'])`, the remaining fields are the per-record
oracles of `process_single_message_data`. -/
structure RecordRun where
  messageId : List Char
  parsed : Except PyError CiMessage
  build_id : List Char
  timestamp : List Char
  putError : Option PyError
  invokeError : Option PyError
deriving DecidableEq, Repr

/-- Parse-then-process for one record: the body of the per-record `try` of
both `lambda_handler` (lines 234–247) and the poll path (lines 186–204). -/
def runRecord (r : RecordRun) : Except PyError Unit × List CiEffect :=
  match r.parsed with
  | .error e => (.error e, [])
  | .ok message_data =>
    process_single_message_data r.build_id r.timestamp r.putError r.invokeError
      message_data r.messageId

/-- `lambda_handler(event, context)` of `git-ci-logger.py` (lines 219–252),
on an event that does contain `Records`: processes the records in order;
every exception (JSONDecodeError, ClientError, or any other) is re-raised,
aborting the batch.  Returns the outcome (`.ok` = the final 200 body text)
and the accumulated effect trace. -/
def gitCiLambdaHandler : List RecordRun → Except PyError (List Char) × List CiEffect
  | [] => (.ok "All messages processed successfully".toList, [])
  | r :: rest =>
    match runRecord r with
    | (.error e, tr) => (.error e, tr)
    | (.ok _, tr) =>
      let rec_rest := gitCiLambdaHandler rest
      (rec_rest.1, tr ++ rec_rest.2)

/-- One message as returned by `sqs.receive_message`, bundled with the
oracle outcomes of its processing. -/
structure ReceivedMessage where
  receiptHandle : List Char
  run : RecordRun
deriving DecidableEq, Repr

/-- `poll_and_process_sqs_message()` of `git-ci-logger.py` (lines 154–215).
`receive` is the combined oracle for `get_queue_url` + `receive_message`:
`.error` = those SQS calls raised (the function returns `False`),
`.ok none` = no message received (returns `None`), `.ok (some m)` = one
message received.  The message is deleted only after `runRecord` completed
without raising; on a processing failure the function returns `False`
without deleting. -/
def poll_and_process_sqs_message (receive : Except PyError (Option ReceivedMessage)) :
    Option Bool × List CiEffect :=
  match receive with
  | .error _ => (some false, [])
  | .ok none => (none, [])
  | .ok (some m) =>
    match runRecord m.run with
    | (.error _, tr) => (some false, tr)
    | (.ok _, tr) => (some true, tr ++ [.deleteMessage m.receiptHandle])

/-!
## Embedding shared by `src/lambda/nlp-for-devops-eks-prod.py` and
## `src/lambda/eks-status.py` (both files contain an identical
## `write_ca_and_kubeconfig` and `run_kubectl`)
-/

/-- Outcome of one `subprocess.check_output` invocation of kubectl
(the external-process oracle). -/
inductive KubectlOutcome where
  /-- Zero exit status; carries the combined stdout/stderr. -/
  | success (output : List Char)
  /-- Non-zero (positive) exit status; carries the combined stdout/stderr
  and the exit status. -/
  | calledProcessError (output : List Char) (returncode : Nat)
  /-- The kubectl binary is absent. -/
  | fileNotFound
deriving DecidableEq, Repr

/-- The external-process oracle: maps the full command line to its outcome. -/
def Kubectl : Type := List (List Char) → KubectlOutcome

def KUBECTL_BIN : List Char := "/opt/bin/kubectl".toList

def KUBECONFIG_PATH : List Char := "/tmp/kubeconfig".toList

/-- `cmd = ["/opt/bin/kubectl", "--kubeconfig", kubeconfig_path] + args`
(line 78 of both handler files). -/
def fullCmd (args : List (List Char)) : List (List Char) :=
  [KUBECTL_BIN, "--kubeconfig".toList, KUBECONFIG_PATH] ++ args

/-- `run_kubectl(kubeconfig_path, args)` of both handler files (lines
73–98 / 71–96): runs the command; on `CalledProcessError` or
`FileNotFoundError` it logs and re-raises the exception unchanged. -/
def run_kubectl (k : Kubectl) (args : List (List Char)) : Except PyError (List Char) :=
  match k (fullCmd args) with
  | .success output => .ok output
  | .calledProcessError output returncode =>
    .error (.calledProcessError (fullCmd args) output returncode)
  | .fileNotFound => .error (.fileNotFound KUBECTL_BIN)

/-- The inbound command event of both handlers; each field is read with
`.get` or subscription, hence `Option`.  Field `nspace` models the
`"namespace"` key. -/
structure EksEvent where
  action : Option (List Char)
  nspace : Option (List Char)
  deployment : Option (List Char)
  container : Option (List Char)
  image : Option (List Char)
deriving DecidableEq, Repr

/-- External effects of the two EKS handlers, in order of occurrence; an
entry is recorded for every attempt, whether or not it raised. -/
inductive EksEffect where
  /-- `open(path, 'r')` of a manifest file. -/
  | openFile (path : List Char)
  /-- Writing the rendered manifest to `/tmp` (`open(path, "w")`). -/
  | writeFile (path : List Char) (content : List Char)
  /-- One `subprocess.check_output` invocation, with the full command. -/
  | kubectlCall (cmd : List (List Char))
deriving DecidableEq, Repr

/-!
## Embedding of `lambda_handler` of `src/lambda/nlp-for-devops-eks-prod.py`
-/

/-- The flat result dictionary returned by
`nlp-for-devops-eks-prod.lambda_handler`; a `none` field models an absent
key.  Field `nspace` models the `"namespace"` key. -/
structure NlpResult where
  statusCode : Nat
  message : List Char
  nspace : Option (List Char) := none
  action : Option (List Char) := none
  deployment : Option (List Char) := none
  image : Option (List Char) := none
  output : Option (List Char) := none
  rollout_status : Option (List Char) := none
  error : Option (List Char) := none
deriving DecidableEq, Repr

/-- The `except Exception` tail of the action `try` block (lines 230–235):
`{"statusCode": 500, "message": f"kubectl execution failed for action
'{action}'.", "error": str(e)}`. -/
def nlpErr500 (action : List Char) (e : PyError) : NlpResult :=
  { statusCode := 500
    message := "kubectl execution failed for action ".toList ++ quoted action ++ ".".toList
    error := some (pyStr e) }

/-- The unified success return (lines 244–249). -/
def nlpOk200 (action nspace final_output : List Char) : NlpResult :=
  { statusCode := 200
    message := "kubectl executed successfully for action ".toList ++ quoted action
    nspace := some nspace
    action := some action
    output := some final_output }

/-- The per-file body of the `apply` loop (lines 155–179): read the
namespace manifest from `/var/task/`, substitute the image placeholder,
write the result to `/tmp/`, and `kubectl apply` it; the first exception
aborts the remaining files.  `fs` is the filesystem oracle for
`open(path, 'r')` (`none` = `FileNotFoundError`).  On success returns the
collected `all_results` in file order. -/
def applyLoop (k : Kubectl) (fs : List Char → Option (List Char)) (image : List Char) :
    List (List Char) → Except PyError (List (List Char)) × List EksEffect
  | [] => (.ok [], [])
  | file_name :: rest =>
    let yaml_base_path := "/var/task/".toList ++ file_name
    match fs yaml_base_path with
    | none => (.error (.fileNotFound yaml_base_path), [.openFile yaml_base_path])
    | some yaml_text =>
      let rendered := renderManifest yaml_text image
      let yaml_tmp_path := "/tmp/".toList ++ file_name
      let args := ["apply".toList, "-f".toList, yaml_tmp_path]
      let pre : List EksEffect :=
        [.openFile yaml_base_path, .writeFile yaml_tmp_path rendered,
         .kubectlCall (fullCmd args)]
      match run_kubectl k args with
      | .error e => (.error e, pre)
      | .ok result =>
        let rec_rest := applyLoop k fs image rest
        ((rec_rest.1.map fun results => result :: results), pre ++ rec_rest.2)

/-- `lambda_handler(event, context)` of `nlp-for-devops-eks-prod.py`
(lines 101–249).  `boot` is the oracle for `write_ca_and_kubeconfig()`
(`.error msg` = it raised an exception whose `str` is `msg`, answered by
the early 500 of lines 114–119); `fs` is the filesystem oracle; `k` the
kubectl oracle.  Missing-key subscriptions (`event["deployment"]` etc.)
raise `KeyError`, which the blanket `except Exception` of lines 230–235
turns into the 500 envelope. -/
def nlpHandler (k : Kubectl) (fs : List Char → Option (List Char))
    (boot : Except (List Char) Unit) (ev : EksEvent) : NlpResult × List EksEffect :=
  match boot with
  | .error e =>
    ({ statusCode := 500
       message := "Failed to generate kubeconfig.".toList
       error := some e }, [])
  | .ok _ =>
    let image := ev.image.getD "latest".toList
    let nspace := pyLower (ev.nspace.getD "prod".toList)
    let action := ev.action.getD "get".toList
    if action = "restart".toList then
      match ev.deployment with
      | none => (nlpErr500 action (.keyError "deployment".toList), [])
      | some deployment =>
        let args := ["rollout".toList, "restart".toList,
          "deployment/".toList ++ deployment, "-n".toList, nspace]
        match run_kubectl k args with
        | .error e => (nlpErr500 action e, [.kubectlCall (fullCmd args)])
        | .ok result => (nlpOk200 action nspace result, [.kubectlCall (fullCmd args)])
    else if action = "apply".toList then
      let files_to_deploy :=
        ["deployment-".toList ++ nspace ++ ".yaml".toList,
         "service-".toList ++ nspace ++ ".yaml".toList]
      match applyLoop k fs image files_to_deploy with
      | (.error e, tr) => (nlpErr500 action e, tr)
      | (.ok all_results, tr) =>
        (nlpOk200 action nspace (joinSep "\n---\n".toList all_results), tr)
    else if action = "set_image".toList then
      match ev.deployment with
      | none => (nlpErr500 action (.keyError "deployment".toList), [])
      | some deployment =>
        match ev.container with
        | none => (nlpErr500 action (.keyError "container".toList), [])
        | some container =>
          match ev.image with
          | none => (nlpErr500 action (.keyError "image".toList), [])
          | some new_image =>
            let setArgs := ["set".toList, "image".toList,
              "deployment/".toList ++ deployment,
              container ++ "=".toList ++ new_image, "-n".toList, nspace]
            match run_kubectl k setArgs with
            | .error e => (nlpErr500 action e, [.kubectlCall (fullCmd setArgs)])
            | .ok result =>
              let rolloutArgs := ["rollout".toList, "status".toList,
                "deployment/".toList ++ deployment, "-n".toList, nspace,
                "--timeout=60s".toList]
              match run_kubectl k rolloutArgs with
              | .error e =>
                (nlpErr500 action e,
                 [.kubectlCall (fullCmd setArgs), .kubectlCall (fullCmd rolloutArgs)])
              | .ok rollout_status =>
                ({ statusCode := 200
                   message := "Image updated successfully".toList
                   nspace := some nspace
                   deployment := some deployment
                   image := some new_image
                   output := some result
                   rollout_status := some rollout_status },
                 [.kubectlCall (fullCmd setArgs), .kubectlCall (fullCmd rolloutArgs)])
    else
      ({ statusCode := 400
         message := "Unknown action: ".toList ++ action }, [])

/-!
## Embedding of `lambda_handler` of `src/lambda/eks-status.py`
-/

/-- The result of `eks-status.lambda_handler`: the handler returns
`{"statusCode": N, "body": json.dumps({...})}`; the fields of the body
dictionary are modelled directly (the `json.dumps` serialization is not
modelled; a `none` field covers both an absent key and an explicit
`None`/null value).  Field `nspace` models the `"namespace"` key. -/
structure StatusResult where
  statusCode : Nat
  message : List Char
  nspace : Option (List Char) := none
  action : Option (List Char) := none
  deployment : Option (List Char) := none
  output : Option (List Char) := none
  error : Option (List Char) := none
deriving DecidableEq, Repr

/-- The unified `except Exception` block of `eks-status.py` (lines 194–203):
the message carries ` for Deployment '...'` exactly when the local
`deployment` variable is truthy. -/
def statusErr500 (action : List Char) (deployment : Option (List Char)) (e : PyError) :
    StatusResult :=
  let error_context :=
    match deployment with
    | some d => if d = [] then [] else " for Deployment ".toList ++ quoted d
    | none => []
  { statusCode := 500
    message := "kubectl execution failed for action ".toList ++ quoted action ++
      error_context ++ ".".toList
    error := some (pyStr e) }

/-- Python truthiness test `if not deployment` on an optional string:
true for `None` and for the empty string. -/
def pyFalsy (s : Option (List Char)) : Bool :=
  match s with
  | none => true
  | some v => v = []

/-- `lambda_handler(event, context)` of `eks-status.py` (lines 99–220).
Same oracles as `nlpHandler`; this revision recognizes only `get`,
`status` and `describe`, validates `deployment` explicitly with a 400
response, and does **not** lowercase the namespace (line 123). -/
def eksStatusHandler (k : Kubectl) (boot : Except (List Char) Unit) (ev : EksEvent) :
    StatusResult × List EksEffect :=
  match boot with
  | .error e =>
    ({ statusCode := 500
       message := "Failed to generate kubeconfig.".toList
       error := some e }, [])
  | .ok _ =>
    let nspace := ev.nspace.getD "prod".toList
    let action := ev.action.getD "get".toList
    if action = "get".toList then
      let args := ["get".toList, "all".toList, "-n".toList, nspace]
      match run_kubectl k args with
      | .error e => (statusErr500 action none e, [.kubectlCall (fullCmd args)])
      | .ok result =>
        ({ statusCode := 200
           message := "kubectl executed successfully for action ".toList ++ quoted action
           nspace := some nspace
           action := some action
           deployment := none
           output := some result }, [.kubectlCall (fullCmd args)])
    else if action = "status".toList then
      if pyFalsy ev.deployment then
        ({ statusCode := 400
           message := "Missing required parameter: ".toList ++
             quoted "deployment".toList ++ " for action ".toList ++
             quoted "status".toList ++ ".".toList }, [])
      else
        let deployment := ev.deployment.getD []
        let args := ["rollout".toList, "status".toList,
          "deployment/".toList ++ deployment, "-n".toList, nspace,
          "--timeout=120s".toList]
        match run_kubectl k args with
        | .error e =>
          (statusErr500 action (some deployment) e, [.kubectlCall (fullCmd args)])
        | .ok result =>
          ({ statusCode := 200
             message := "Rollout status retrieved successfully".toList
             nspace := some nspace
             deployment := some deployment
             output := some result }, [.kubectlCall (fullCmd args)])
    else if action = "describe".toList then
      if pyFalsy ev.deployment then
        ({ statusCode := 400
           message := "Missing required parameter: ".toList ++
             quoted "deployment".toList ++ " for action ".toList ++
             quoted "describe".toList ++ ".".toList }, [])
      else
        let deployment := ev.deployment.getD []
        let args := ["describe".toList, "deployment".toList, deployment,
          "-n".toList, nspace]
        match run_kubectl k args with
        | .error e =>
          (statusErr500 action (some deployment) e, [.kubectlCall (fullCmd args)])
        | .ok result =>
          ({ statusCode := 200
             message := "kubectl executed successfully for action ".toList ++ quoted action
             nspace := some nspace
             action := some action
             deployment := some deployment
             output := some result }, [.kubectlCall (fullCmd args)])
    else
      ({ statusCode := 400
         message := "Unknown action: ".toList ++ action }, [])

/-!
## Fixed oracles used in the theorems
-/

/-- A kubectl oracle on which every invocation succeeds with output `out`. -/
def kOut (out : List Char) : Kubectl := fun _ => .success out

/-- A kubectl oracle on which every invocation exits non-zero with combined
stdout/stderr `out` and exit status `rc`. -/
def kCpe (out : List Char) (rc : Nat) : Kubectl := fun _ => .calledProcessError out rc

/-- A kubectl oracle that exits non-zero (output `out`, status `rc`) exactly
on the command `bad` and succeeds with output `okOut` on every other
command. -/
def kFailOn (bad : List (List Char)) (out : List Char) (rc : Nat) (okOut : List Char) :
    Kubectl :=
  fun cmd => if cmd = bad then .calledProcessError out rc else .success okOut

/-- A filesystem oracle with no files. -/
def fsEmpty : List Char → Option (List Char) := fun _ => none

/-- A filesystem oracle on which every path reads the same text. -/
def fsAll (text : List Char) : List Char → Option (List Char) := fun _ => some text

/-- A filesystem oracle holding exactly one file. -/
def fsOnly (path text : List Char) : List Char → Option (List Char) :=
  fun p => if p = path then some text else none

/-!
## Theorems for the claims
-/

/-- Claim C4: for every queue record whose body is
`{repo_url: "org/app", version: "9-abc", environment: "qa"}`, one successful
pass of the consumer's per-record processing (DynamoDB put and Lambda
invocation both succeed) performs exactly one audit-store put whose item
has `environment == "qa"` and `full_image_tag == "org/app:9-abc"`, and
exactly one asynchronous (`InvocationType='Event'`) downstream invocation
whose payload has `action == "apply"`, `namespace == "qa"` and
`image == "org/app:9-abc"` — for every generated build id, timestamp and
queue message id. -/
theorem c4_consumer_single_put_and_invoke (build_id timestamp message_id : List Char) :
    process_single_message_data build_id timestamp none none
        ⟨some "org/app".toList, some "9-abc".toList, some "qa".toList,
         none, none, none, none⟩ message_id =
      (.ok (),
        [.putItem
          { build_id := build_id
            timestamp := timestamp
            full_image_tag := "org/app:9-abc".toList
            repo_url := some "org/app".toList
            version := "9-abc".toList
            environment := "qa".toList
            lex_session_id := "N/A".toList
            bot_id := "N/A".toList
            bot_alias_id := "N/A".toList
            originating_request_id := "N/A".toList
            sqs_message_id := message_id },
         .invokeLambda "nlp-for-devops-eks-prod".toList "Event".toList
          { action := "apply".toList
            image := "org/app:9-abc".toList
            nspace := "qa".toList }]) := by
  rfl

/-- Claim C10: for every consumer message whose body lacks `repo_url`,
image-tag derivation does not raise: `extract_full_image_tag` returns
`"N/A:<version>"`, and on a successful pass the audit record is still
written and the downstream `apply` trigger still invoked with that
`"N/A:"`-prefixed image tag. -/
theorem c10_missing_repo_url_na_tag
    (version env build_id timestamp message_id : List Char) :
    extract_full_image_tag none version = "N/A:".toList ++ version ∧
    process_single_message_data build_id timestamp none none
        ⟨none, some version, some env, none, none, none, none⟩ message_id =
      (.ok (),
        [.putItem
          { build_id := build_id
            timestamp := timestamp
            full_image_tag := "N/A:".toList ++ version
            repo_url := none
            version := version
            environment := env
            lex_session_id := "N/A".toList
            bot_id := "N/A".toList
            bot_alias_id := "N/A".toList
            originating_request_id := "N/A".toList
            sqs_message_id := message_id },
         .invokeLambda "nlp-for-devops-eks-prod".toList "Event".toList
          { action := "apply".toList
            image := "N/A:".toList ++ version
            nspace := env }]) :=
  ⟨rfl, rfl⟩

/-- Claim C8: image tag derivation returns `"acme/widget:1.2.3"` for repo
URL `"https://github.com/acme/widget"` and version `"1.2.3"` (last two
slash-separated segments joined, version appended), and for every repo URL
whose `'/'`-rstripped form splits into fewer than two slash-separated
segments it returns `"N/A:<version>"` instead of raising. -/
theorem c8_image_tag_derivation :
    extract_full_image_tag (some "https://github.com/acme/widget".toList) "1.2.3".toList =
      "acme/widget:1.2.3".toList ∧
    ∀ repo_url version : List Char,
      (splitSlash (rstripSlash repo_url)).length < 2 →
      extract_full_image_tag (some repo_url) version = "N/A:".toList ++ version := by
  constructor
  · decide
  · intro repo_url version h
    simp only [extract_full_image_tag]
    split
    · omega
    · rfl

/-- Witness for C8 at `repo_url = "widget"` (a single segment). -/
theorem c8_image_tag_derivation_witness :
    (splitSlash (rstripSlash "widget".toList)).length < 2 ∧
    extract_full_image_tag (some "widget".toList) "1.2.3".toList =
      "N/A:".toList ++ "1.2.3".toList :=
  ⟨by decide, c8_image_tag_derivation.2 "widget".toList "1.2.3".toList (by decide)⟩

/-- Helper: per-record processing never performs a queue delete (its trace
holds only `putItem` and `invokeLambda` entries). -/
theorem runRecord_no_delete (r : RecordRun) (h : List Char) :
    CiEffect.deleteMessage h ∉ (runRecord r).2 := by
  unfold runRecord process_single_message_data
  cases r.parsed with
  | error e => simp
  | ok m =>
    cases hp : r.putError with
    | some e => simp
    | none =>
      cases hi : r.invokeError with
      | some e => simp
      | none => simp

/-- Helper: the queue-triggered handler never performs a queue delete. -/
theorem gitCiHandler_no_delete (rs : List RecordRun) (h : List Char) :
    CiEffect.deleteMessage h ∉ (gitCiLambdaHandler rs).2 := by
  induction rs with
  | nil => simp [gitCiLambdaHandler]
  | cons r rest ih =>
    unfold gitCiLambdaHandler
    have hr := runRecord_no_delete r h
    rcases hrr : runRecord r with ⟨res, tr⟩
    rw [hrr] at hr
    cases res with
    | error e => simpa using hr
    | ok u =>
      simp only [List.mem_append]
      rintro (hc | hc)
      · exact hr hc
      · exact ih hc

/-- Helper: if any record of the batch fails, the queue-triggered handler
re-raises (its outcome is an error). -/
theorem gitCiHandler_error_of_fail (rs : List RecordRun) (r : RecordRun) (e : PyError)
    (hr : r ∈ rs) (hfail : (runRecord r).1 = .error e) :
    ∃ e', (gitCiLambdaHandler rs).1 = .error e' := by
  induction rs with
  | nil => cases hr
  | cons x rest ih =>
    unfold gitCiLambdaHandler
    rcases hx : runRecord x with ⟨res, tr⟩
    cases res with
    | error e2 => exact ⟨e2, rfl⟩
    | ok u =>
      rcases List.mem_cons.mp hr with heq | hmem
      · subst heq
        rw [hx] at hfail
        cases hfail
      · exact ih hmem

/-- Claim C5: a queue record whose processing fails (body parse, audit
write, or downstream trigger) is never deleted: the queue-triggered handler
performs no delete at all and re-raises the failure, and the manual-poll
path returns `False` with the record's own trace — which contains no
delete — rather than committing the message. -/
theorem c5_no_commit_on_failure (rs : List RecordRun) (r : RecordRun) (e : PyError)
    (receiptHandle h : List Char)
    (hfail : (runRecord r).1 = .error e) :
    (CiEffect.deleteMessage h ∉ (gitCiLambdaHandler rs).2) ∧
    (r ∈ rs → ∃ e', (gitCiLambdaHandler rs).1 = .error e') ∧
    (poll_and_process_sqs_message (.ok (some ⟨receiptHandle, r⟩)) =
      (some false, (runRecord r).2)) ∧
    (CiEffect.deleteMessage h ∉ (runRecord r).2) := by
  refine ⟨gitCiHandler_no_delete rs h, fun hr => gitCiHandler_error_of_fail rs r e hr hfail,
    ?_, runRecord_no_delete r h⟩
  unfold poll_and_process_sqs_message
  rcases hrr : runRecord r with ⟨res, tr⟩
  rw [hrr] at hfail
  cases res with
  | error e2 => simp [hrr]
  | ok u => cases hfail

/-- Witness for C5 at a concrete failing record (body parse failure). -/
theorem c5_no_commit_on_failure_witness :
    (runRecord ⟨"mid".toList, .error (.jsonDecodeError "Expecting value".toList),
        "b1".toList, "t1".toList, none, none⟩).1 =
      .error (.jsonDecodeError "Expecting value".toList) ∧
    (poll_and_process_sqs_message (.ok (some ⟨"rh".toList,
        ⟨"mid".toList, .error (.jsonDecodeError "Expecting value".toList),
         "b1".toList, "t1".toList, none, none⟩⟩)) =
      (some false,
        (runRecord ⟨"mid".toList, .error (.jsonDecodeError "Expecting value".toList),
          "b1".toList, "t1".toList, none, none⟩).2)) :=
  ⟨rfl,
    (c5_no_commit_on_failure
      [⟨"mid".toList, .error (.jsonDecodeError "Expecting value".toList),
        "b1".toList, "t1".toList, none, none⟩]
      ⟨"mid".toList, .error (.jsonDecodeError "Expecting value".toList),
        "b1".toList, "t1".toList, none, none⟩
      (.jsonDecodeError "Expecting value".toList)
      "rh".toList "rh".toList rfl).2.2.1⟩

/-- Helper: for a non-empty pattern occurring in `s` (and enough fuel), the
replacement text occurs in the output of `replaceAllGo`. -/
theorem repl_mem_replaceAllGo (pat repl : List Char) (hpat : pat ≠ []) :
    ∀ (fuel : Nat) (s : List Char), s.length ≤ fuel → pat <:+: s →
      repl <:+: replaceAllGo pat repl fuel s := by
  intro fuel
  induction fuel with
  | zero =>
    intro s hs hinf
    have hnil : s = [] := List.eq_nil_of_length_eq_zero (Nat.le_zero.mp hs)
    subst hnil
    exact absurd (List.infix_nil.mp hinf) hpat
  | succ n ih =>
    intro s hs hinf
    match s with
    | [] => exact absurd (List.infix_nil.mp hinf) hpat
    | c :: rest =>
      by_cases hp : pat <+: (c :: rest)
      · rw [replaceAllGo, if_pos hp]
        exact ⟨[], replaceAllGo pat repl n (rest.drop (pat.length - 1)), by simp⟩
      · rw [replaceAllGo, if_neg hp]
        have hinf' : pat <:+: rest := by
          rcases List.infix_cons_iff.mp hinf with hpre | htail
          · exact absurd hpre hp
          · exact htail
        have hlen : rest.length ≤ n := by
          simpa using Nat.le_of_succ_le_succ (by simpa using hs)
        exact List.infix_cons (ih rest hlen hinf')

/-- Helper: for a non-empty pattern occurring in `s`, the replacement text
occurs in `replaceAll pat repl s`. -/
theorem repl_mem_replaceAll (pat repl s : List Char) (hpat : pat ≠ [])
    (hinf : pat <:+: s) : repl <:+: replaceAll pat repl s :=
  repl_mem_replaceAllGo pat repl hpat s.length s (Nat.le_refl _) hinf

/-- Counterexample to claim C7 as stated: for the manifest text
`"____IMAGE_TAG____"` (which contains the placeholder) and the image
reference `"IMAGE_TAG"` (which does not contain the placeholder), the
rendered text still contains the placeholder token — the substitution
recombines with the surrounding underscores — refuting "no occurrence of
the placeholder token remains" for every text and image. -/
theorem c7_placeholder_remains_counterexample :
    (IMAGE_TAG_PLACEHOLDER <:+: "____IMAGE_TAG____".toList) ∧
    ¬ (IMAGE_TAG_PLACEHOLDER <:+: "IMAGE_TAG".toList) ∧
    (IMAGE_TAG_PLACEHOLDER <:+:
      renderManifest "____IMAGE_TAG____".toList "IMAGE_TAG".toList) := by
  refine ⟨by decide, by decide, by decide⟩

/-- Claim C7, amended: if the manifest text contains the placeholder token
`__IMAGE_TAG__`, the rendered text is the Python `str.replace` of all its
(left-to-right, non-overlapping) occurrences by the image reference and
therefore contains the image reference — but occurrences of the
placeholder may remain when the substitution recombines with surrounding
text; if the text does not contain the placeholder, the rendered text is
byte-identical to the input. -/
theorem c7_render_amended (yaml_text image : List Char) :
    (IMAGE_TAG_PLACEHOLDER <:+: yaml_text →
      renderManifest yaml_text image =
        replaceAll IMAGE_TAG_PLACEHOLDER image yaml_text ∧
      image <:+: renderManifest yaml_text image) ∧
    (¬ IMAGE_TAG_PLACEHOLDER <:+: yaml_text →
      renderManifest yaml_text image = yaml_text) := by
  constructor
  · intro h
    rw [renderManifest, if_pos h]
    exact ⟨rfl, repl_mem_replaceAll _ _ _ (by decide) h⟩
  · intro h
    rw [renderManifest, if_neg h]

/-- Witness for C7 (amended) at a concrete manifest and image. -/
theorem c7_render_amended_witness :
    (IMAGE_TAG_PLACEHOLDER <:+: "image: __IMAGE_TAG__".toList) ∧
    "foo/bar:v1".toList <:+:
      renderManifest "image: __IMAGE_TAG__".toList "foo/bar:v1".toList :=
  ⟨by decide,
    ((c7_render_amended "image: __IMAGE_TAG__".toList "foo/bar:v1".toList).1
      (by decide)).2⟩

/-- Counterexample to claim C1 as stated: a `restart` command missing
`deployment`, sent to the `nlp-for-devops-eks-prod` dispatcher, yields a
**500**-class result (the `KeyError` is caught by the blanket
`except Exception`), not a 400-class one — although indeed no kubectl call
is attempted (empty trace). -/
theorem c1_missing_param_not_400_counterexample :
    nlpHandler (kOut "OK".toList) fsEmpty (.ok ())
        ⟨some "restart".toList, none, none, none, none⟩ =
      (nlpErr500 "restart".toList (.keyError "deployment".toList), []) ∧
    (nlpErr500 "restart".toList (.keyError "deployment".toList)).statusCode = 500 ∧
    (nlpErr500 "restart".toList (.keyError "deployment".toList)).statusCode ≠ 400 := by
  refine ⟨rfl, rfl, by decide⟩

/-- Claim C1, amended: a command missing a required parameter never reaches
a kubectl call (empty effect trace), but the status class depends on the
handler: `status`/`describe` missing `deployment` get an explicit 400 from
`eks-status.lambda_handler`, while `restart` missing `deployment` and
`set_image` missing `deployment`/`container`/`image` get a 500 from
`nlp-for-devops-eks-prod.lambda_handler` (the `KeyError` lands in the
blanket `except Exception`). -/
theorem c1_missing_params_fail_fast_amended (k : Kubectl)
    (fs : List Char → Option (List Char))
    (ns container image deployment : Option (List Char)) :
    (eksStatusHandler k (.ok ()) ⟨some "status".toList, ns, none, container, image⟩ =
      ({ statusCode := 400
         message := "Missing required parameter: ".toList ++
           quoted "deployment".toList ++ " for action ".toList ++
           quoted "status".toList ++ ".".toList }, [])) ∧
    (eksStatusHandler k (.ok ()) ⟨some "describe".toList, ns, none, container, image⟩ =
      ({ statusCode := 400
         message := "Missing required parameter: ".toList ++
           quoted "deployment".toList ++ " for action ".toList ++
           quoted "describe".toList ++ ".".toList }, [])) ∧
    (nlpHandler k fs (.ok ()) ⟨some "restart".toList, ns, none, container, image⟩ =
      (nlpErr500 "restart".toList (.keyError "deployment".toList), [])) ∧
    (nlpHandler k fs (.ok ()) ⟨some "set_image".toList, ns, none, container, image⟩ =
      (nlpErr500 "set_image".toList (.keyError "deployment".toList), [])) ∧
    (nlpHandler k fs (.ok ())
        ⟨some "set_image".toList, ns, some (deployment.getD []), none, image⟩ =
      (nlpErr500 "set_image".toList (.keyError "container".toList), [])) ∧
    (nlpHandler k fs (.ok ())
        ⟨some "set_image".toList, ns, some (deployment.getD []),
         some (container.getD []), none⟩ =
      (nlpErr500 "set_image".toList (.keyError "image".toList), [])) := by
  refine ⟨rfl, rfl, rfl, rfl, rfl, rfl⟩

/-- Claim C3 (code bug): `nlp-for-devops-eks-prod.lambda_handler` defaults
the action to `"get"` (line 122) and its unified success return documents a
GET path (line 241), yet no `get` branch exists: a command with no `action`
falls into the unknown-action branch and yields
`{"statusCode": 400, "message": "Unknown action: get"}` with no kubectl
call, instead of listing the namespace resources in a success envelope. -/
theorem c3_default_get_unknown_action_bug :
    nlpHandler (kOut "OK".toList) fsEmpty (.ok ()) ⟨none, none, none, none, none⟩ =
      ({ statusCode := 400, message := "Unknown action: get".toList }, []) := by
  rfl

/-- Claim C6: for every `apply` command over the fixed two-manifest
sequence (`deployment-<ns>.yaml` then `service-<ns>.yaml`), a failure on
any manifest — read failure or kubectl-apply failure, on the first or the
second — aborts the sequence (the effect trace stops at the failing step,
so no later manifest is read or applied) and the dispatcher returns the
500-class error envelope, not a success envelope with partial output.
Cases (a) and (b) hold for every namespace; (c) and (d) are stated at
namespace `prod` so that the filesystem/kubectl oracles can tell the two
manifests apart. -/
theorem c6_apply_aborts_on_failure (k : Kubectl) (ns image0 : Option (List Char))
    (text image out okOut : List Char) (rc : Nat) :
    -- (a) read failure on the first manifest: nothing after the first open
    (nlpHandler k fsEmpty (.ok ()) ⟨some "apply".toList, ns, none, none, image0⟩ =
      (nlpErr500 "apply".toList
        (.fileNotFound ("/var/task/deployment-".toList ++
          pyLower (ns.getD "prod".toList) ++ ".yaml".toList)),
       [.openFile ("/var/task/deployment-".toList ++
          pyLower (ns.getD "prod".toList) ++ ".yaml".toList)])) ∧
    -- (b) kubectl failure on the first manifest: the second is never opened
    (nlpHandler (kCpe out rc) (fsAll text) (.ok ())
        ⟨some "apply".toList, ns, none, none, some image⟩ =
      (nlpErr500 "apply".toList
        (.calledProcessError
          (fullCmd ["apply".toList, "-f".toList,
            "/tmp/deployment-".toList ++ pyLower (ns.getD "prod".toList) ++ ".yaml".toList])
          out rc),
       [.openFile ("/var/task/deployment-".toList ++
          pyLower (ns.getD "prod".toList) ++ ".yaml".toList),
        .writeFile ("/tmp/deployment-".toList ++
          pyLower (ns.getD "prod".toList) ++ ".yaml".toList) (renderManifest text image),
        .kubectlCall (fullCmd ["apply".toList, "-f".toList,
          "/tmp/deployment-".toList ++ pyLower (ns.getD "prod".toList) ++ ".yaml".toList])])) ∧
    -- (c) read failure on the second manifest: error envelope, no second apply
    (nlpHandler (kOut okOut) (fsOnly "/var/task/deployment-prod.yaml".toList text) (.ok ())
        ⟨some "apply".toList, some "prod".toList, none, none, some image⟩ =
      (nlpErr500 "apply".toList (.fileNotFound "/var/task/service-prod.yaml".toList),
       [.openFile "/var/task/deployment-prod.yaml".toList,
        .writeFile "/tmp/deployment-prod.yaml".toList (renderManifest text image),
        .kubectlCall (fullCmd ["apply".toList, "-f".toList, "/tmp/deployment-prod.yaml".toList]),
        .openFile "/var/task/service-prod.yaml".toList])) ∧
    -- (d) kubectl failure on the second manifest: error envelope, no success join
    (nlpHandler
        (kFailOn (fullCmd ["apply".toList, "-f".toList, "/tmp/service-prod.yaml".toList])
          out rc okOut)
        (fsAll text) (.ok ())
        ⟨some "apply".toList, some "prod".toList, none, none, some image⟩ =
      (nlpErr500 "apply".toList
        (.calledProcessError
          (fullCmd ["apply".toList, "-f".toList, "/tmp/service-prod.yaml".toList]) out rc),
       [.openFile "/var/task/deployment-prod.yaml".toList,
        .writeFile "/tmp/deployment-prod.yaml".toList (renderManifest text image),
        .kubectlCall (fullCmd ["apply".toList, "-f".toList, "/tmp/deployment-prod.yaml".toList]),
        .openFile "/var/task/service-prod.yaml".toList,
        .writeFile "/tmp/service-prod.yaml".toList (renderManifest text image),
        .kubectlCall (fullCmd ["apply".toList, "-f".toList, "/tmp/service-prod.yaml".toList])])) := by
  refine ⟨rfl, rfl, rfl, rfl⟩

set_option maxRecDepth 10000 in
/-- Counterexample to claim C2 as stated: kubectl exits non-zero with
combined output `"error: connection refused"`; the dispatcher does return
a 500 result, but its error detail is `str(CalledProcessError)` — the
command and exit status — and does **not** contain the combined
stdout/stderr (which is only printed to the log, lines 88–91). -/
theorem c2_error_detail_without_output_counterexample :
    ((nlpHandler (kCpe "error: connection refused".toList 1) fsEmpty (.ok ())
        ⟨some "restart".toList, none, some "web".toList, none, none⟩).1.statusCode = 500) ∧
    ((nlpHandler (kCpe "error: connection refused".toList 1) fsEmpty (.ok ())
        ⟨some "restart".toList, none, some "web".toList, none, none⟩).1.error =
      some (pyStr (.calledProcessError
        (fullCmd ["rollout".toList, "restart".toList, "deployment/web".toList,
          "-n".toList, "prod".toList])
        "error: connection refused".toList 1))) ∧
    ¬ ("connection refused".toList <:+:
        ((nlpHandler (kCpe "error: connection refused".toList 1) fsEmpty (.ok ())
          ⟨some "restart".toList, none, some "web".toList, none, none⟩).1.error.getD [])) := by
  refine ⟨rfl, rfl, by decide⟩

/-- Claim C2, amended: when the underlying kubectl operation exits non-zero
(combined output `out`, exit status `rc`), every action of both dispatchers
returns a 500-class result whose error detail is `str(CalledProcessError)`
— naming the full command and the exit status — while the combined
stdout/stderr `out` is only printed to the log, not preserved in the
result.  Stated for `restart`, `set_image` and `apply` of
`nlp-for-devops-eks-prod` and for `get`, `status` and `describe` of
`eks-status` (the latter two at a concrete deployment name, which the
handlers require to be truthy). -/
theorem c2_nonzero_exit_yields_500_amended
    (fs : List Char → Option (List Char))
    (ns : Option (List Char)) (dep cont img text out : List Char) (rc : Nat) :
    (nlpHandler (kCpe out rc) fs (.ok ())
        ⟨some "restart".toList, ns, some dep, none, none⟩ =
      (nlpErr500 "restart".toList
        (.calledProcessError
          (fullCmd ["rollout".toList, "restart".toList, "deployment/".toList ++ dep,
            "-n".toList, pyLower (ns.getD "prod".toList)]) out rc),
       [.kubectlCall (fullCmd ["rollout".toList, "restart".toList,
          "deployment/".toList ++ dep, "-n".toList, pyLower (ns.getD "prod".toList)])])) ∧
    (nlpHandler (kCpe out rc) fs (.ok ())
        ⟨some "set_image".toList, ns, some dep, some cont, some img⟩ =
      (nlpErr500 "set_image".toList
        (.calledProcessError
          (fullCmd ["set".toList, "image".toList, "deployment/".toList ++ dep,
            cont ++ "=".toList ++ img, "-n".toList, pyLower (ns.getD "prod".toList)]) out rc),
       [.kubectlCall (fullCmd ["set".toList, "image".toList, "deployment/".toList ++ dep,
          cont ++ "=".toList ++ img, "-n".toList, pyLower (ns.getD "prod".toList)])])) ∧
    ((nlpHandler (kCpe out rc) (fsAll text) (.ok ())
        ⟨some "apply".toList, ns, none, none, some img⟩).1 =
      nlpErr500 "apply".toList
        (.calledProcessError
          (fullCmd ["apply".toList, "-f".toList,
            "/tmp/deployment-".toList ++ pyLower (ns.getD "prod".toList) ++ ".yaml".toList])
          out rc)) ∧
    (eksStatusHandler (kCpe out rc) (.ok ())
        ⟨some "get".toList, ns, none, none, none⟩ =
      (statusErr500 "get".toList none
        (.calledProcessError
          (fullCmd ["get".toList, "all".toList, "-n".toList, ns.getD "prod".toList]) out rc),
       [.kubectlCall (fullCmd ["get".toList, "all".toList, "-n".toList,
          ns.getD "prod".toList])])) ∧
    (eksStatusHandler (kCpe out rc) (.ok ())
        ⟨some "status".toList, ns, some "web".toList, none, none⟩ =
      (statusErr500 "status".toList (some "web".toList)
        (.calledProcessError
          (fullCmd ["rollout".toList, "status".toList, "deployment/web".toList,
            "-n".toList, ns.getD "prod".toList, "--timeout=120s".toList]) out rc),
       [.kubectlCall (fullCmd ["rollout".toList, "status".toList, "deployment/web".toList,
          "-n".toList, ns.getD "prod".toList, "--timeout=120s".toList])])) ∧
    (eksStatusHandler (kCpe out rc) (.ok ())
        ⟨some "describe".toList, ns, some "web".toList, none, none⟩ =
      (statusErr500 "describe".toList (some "web".toList)
        (.calledProcessError
          (fullCmd ["describe".toList, "deployment".toList, "web".toList,
            "-n".toList, ns.getD "prod".toList]) out rc),
       [.kubectlCall (fullCmd ["describe".toList, "deployment".toList, "web".toList,
          "-n".toList, ns.getD "prod".toList])])) := by
  refine ⟨rfl, rfl, rfl, rfl, rfl, rfl⟩

/-- Counterexample to claim C9 as stated: `eks-status.lambda_handler` takes
the namespace verbatim (line 123, no `.lower()`): a `get` command with
namespace `"PROD"` runs kubectl with `-n PROD` and echoes `"PROD"`, which
is not the lowercase form. -/
theorem c9_namespace_not_lowercased_counterexample :
    ((eksStatusHandler (kOut "OK".toList) (.ok ())
        ⟨some "get".toList, some "PROD".toList, none, none, none⟩).1.nspace =
      some "PROD".toList) ∧
    ((eksStatusHandler (kOut "OK".toList) (.ok ())
        ⟨some "get".toList, some "PROD".toList, none, none, none⟩).2 =
      [.kubectlCall (fullCmd ["get".toList, "all".toList, "-n".toList, "PROD".toList])]) ∧
    "PROD".toList ≠ pyLower "PROD".toList := by
  refine ⟨rfl, rfl, by decide⟩

/-- Claim C9, amended: `nlp-for-devops-eks-prod.lambda_handler` lowercases
the namespace (default `"prod"`) and uses the lowercased form both in the
kubectl commands and in the echoed result, for all its actions (`restart`,
`apply`, `set_image`); `eks-status.lambda_handler` instead uses the
namespace string verbatim — no case normalization — in its kubectl
commands and echoed results (`get`, `status`, `describe`, the latter two
stated at a concrete truthy deployment name). -/
theorem c9_namespace_normalization_amended
    (fs : List Char → Option (List Char))
    (ns : Option (List Char)) (dep cont img text out : List Char) :
    (nlpHandler (kOut out) fs (.ok ()) ⟨some "restart".toList, ns, some dep, none, none⟩ =
      (nlpOk200 "restart".toList (pyLower (ns.getD "prod".toList)) out,
       [.kubectlCall (fullCmd ["rollout".toList, "restart".toList,
          "deployment/".toList ++ dep, "-n".toList, pyLower (ns.getD "prod".toList)])])) ∧
    ((nlpHandler (kOut out) (fsAll text) (.ok ())
        ⟨some "apply".toList, ns, none, none, some img⟩).1 =
      nlpOk200 "apply".toList (pyLower (ns.getD "prod".toList))
        (joinSep "\n---\n".toList [out, out])) ∧
    (nlpHandler (kOut out) fs (.ok ())
        ⟨some "set_image".toList, ns, some dep, some cont, some img⟩ =
      ({ statusCode := 200
         message := "Image updated successfully".toList
         nspace := some (pyLower (ns.getD "prod".toList))
         deployment := some dep
         image := some img
         output := some out
         rollout_status := some out },
       [.kubectlCall (fullCmd ["set".toList, "image".toList, "deployment/".toList ++ dep,
          cont ++ "=".toList ++ img, "-n".toList, pyLower (ns.getD "prod".toList)]),
        .kubectlCall (fullCmd ["rollout".toList, "status".toList,
          "deployment/".toList ++ dep, "-n".toList, pyLower (ns.getD "prod".toList),
          "--timeout=60s".toList])])) ∧
    (eksStatusHandler (kOut out) (.ok ()) ⟨some "get".toList, ns, none, none, none⟩ =
      ({ statusCode := 200
         message := "kubectl executed successfully for action ".toList ++ quoted "get".toList
         nspace := some (ns.getD "prod".toList)
         action := some "get".toList
         output := some out },
       [.kubectlCall (fullCmd ["get".toList, "all".toList, "-n".toList,
          ns.getD "prod".toList])])) ∧
    ((eksStatusHandler (kOut out) (.ok ())
        ⟨some "status".toList, ns, some "web".toList, none, none⟩).1.nspace =
      some (ns.getD "prod".toList)) ∧
    ((eksStatusHandler (kOut out) (.ok ())
        ⟨some "describe".toList, ns, some "web".toList, none, none⟩).1.nspace =
      some (ns.getD "prod".toList)) := by
  refine ⟨rfl, rfl, rfl, rfl, rfl, rfl⟩
